import Mathlib

/-!
# Robuddie: the verification session lifecycle of `src/index.js`

A shallow embedding of the `interactionCreate` handler of `src/index.js`
(lines 90-201) and of the two in-memory tables it works on
(`verificationStore`, `serverSettings`, lines 10-11).

Modelling conventions.

* A JavaScript `Map` is a lookup function `key → Option value`; `set` and
  `delete` are pointwise updates.
* Everything the handler obtains from outside the process is an input: the
  `World` record answers `Math.random`, `interaction.user.send`, the two
  `axios` calls, `guild.members.fetch` and `member.roles.add`.  Each of the
  awaited calls may reject, which is an `Except.error`.
* `interaction.reply` and `interaction.editReply` may reject like every
  awaited call (`World.replySend`).  The result lists every reply that was
  issued, in order, with whether it was delivered; a reply that rejects
  inside a try block enters the catch block, which issues a second reply.
  `interaction.deferReply` is taken to complete.
* An interaction comes from a guild: `interaction.guild` and
  `interaction.member` are present, and the member is the invoking user.
* Strings are sequences of Unicode characters; `includes` is the search for
  a contiguous run of characters.
* A handler returns the new tables, the replies it issued and the list of
  the other effects it had, in the order of the source.
-/

namespace Robuddie

/-! ## Data model -/

/-- Discord identifiers (`user.id`, `guild.id`, `role.id`) are strings. -/
abbrev Snowflake := String

/-- Value stored in `verificationStore` (line 124): `{ robloxUsername, phrase }`. -/
structure Session where
  robloxUsername : String
  phrase : String
deriving DecidableEq, Repr

/-- Value stored in `serverSettings` (line 189): `{ verifiedRoleId }`.  The
property is optional so that an entry without it can be expressed. -/
structure Settings where
  verifiedRoleId : Option Snowflake
deriving DecidableEq, Repr

/-- A role of a guild as the handler reads it: `id`, `name`, `position`. -/
structure Role where
  id : Snowflake
  name : String
  position : Int
deriving DecidableEq, Repr

/-- The guild of an interaction: `guild.id`, `guild.name`, `guild.roles.cache`
(in iteration order). -/
structure Guild where
  id : Snowflake
  name : String
  roles : List Role
deriving DecidableEq, Repr

/-- An element of `userSearchRes.data.data` (line 150): a matched account. -/
structure RobloxUser where
  id : Nat
  name : String
deriving DecidableEq, Repr

/-- A value thrown by an awaited call or by the runtime. -/
inductive JsError where
  | typeError (msg : String)
  | rejected (msg : String)
deriving DecidableEq, Repr

/-- The slash commands registered at lines 33-69, with their required options. -/
inductive Command where
  | ping
  | help
  | verify (roblox_username : String)
  | done
  | setup
  | forceverify (user : Snowflake) (roblox_username : String)
  | premium
deriving DecidableEq, Repr

/-- An incoming interaction: `isChatInputCommand()`, the command with its
options, `interaction.user.id` (also the id of `interaction.member`) and
`interaction.guild`. -/
structure Interaction where
  isChatInputCommand : Bool
  command : Command
  user : Snowflake
  guild : Guild
deriving DecidableEq, Repr

/-- The two module-level tables (lines 10-11). -/
structure Bot where
  verificationStore : Snowflake → Option Session
  serverSettings : Snowflake → Option Settings

/-- The replies of the handler, one constructor per message text. -/
inductive Reply where
  /-- Line 96: "Pinging...". -/
  | pinging
  /-- Line 98: the pong message. -/
  | pong
  /-- Line 113: the help embed. -/
  | help
  /-- Line 119, "Setup Required!": `NotConfigured`. -/
  | notConfigured
  /-- Line 133, "Check your DMs!": the challenge was issued and delivered. -/
  | checkDMs
  /-- Line 135, "I could not send you a DM.": `DeliveryFailed`. -/
  | deliveryFailed
  /-- Line 142, "You need to start the process with /verify first.":
  `NoPendingSession`. -/
  | noPendingSession
  /-- Line 151, "Could not find a Roblox user named ...":
  `ExternalAccountNotFound`. -/
  | externalAccountNotFound (robloxUsername : String)
  /-- Line 164, "Success! You have been verified as ... and have received
  the ... role." -/
  | success (robloxUsername : String) (roleName : String)
  /-- Line 166, "... the configured Verified role seems to have been
  deleted.": `RoleMissing`. -/
  | roleMissing
  /-- Line 169, "Verification failed. The code was not found ...":
  `PhraseNotFound`. -/
  | phraseNotFound
  /-- Line 173, "An error occurred while trying to connect to Roblox.":
  `ExternalServiceUnavailable`. -/
  | externalServiceUnavailable
  /-- Line 181: no role named exactly "Verified". -/
  | verifiedRoleNotFound
  /-- Line 186: the highest role of the bot is not above the role. -/
  | botRoleTooLow
  /-- Line 190, "Setup Complete!". -/
  | setupComplete
  /-- Line 199: the premium placeholder. -/
  | premium
deriving DecidableEq, Repr

/-- What the outside world answers during one run of the handler. -/
structure World where
  /-- Result of `Math.random().toString(36).substring(2, 10)` (line 123). -/
  randomSuffix : String
  /-- Result of `interaction.user.send(text)` (line 127). -/
  userSend : Snowflake → String → Except JsError Unit
  /-- Result of the POST to `/v1/usernames/users` (line 149): the matches. -/
  usernamesUsers : String → Except JsError (List RobloxUser)
  /-- Result of the GET of `/v1/users/<id>` (line 155): its `description`
  field, `none` when absent or `null`. -/
  usersGet : Nat → Except JsError (Option String)
  /-- Result of `guild.members.fetch(client.user.id)` (line 184): the
  position of the highest role of the bot in that guild. -/
  botHighestPosition : Snowflake → Except JsError Int
  /-- Result of `interaction.member.roles.add(role)` (line 162), by guild,
  member and role. -/
  rolesAdd : Snowflake → Snowflake → Role → Except JsError Unit
  /-- Result of `interaction.reply(message)` or `interaction.editReply(message)`
  (lines 96-199), by message. -/
  replySend : Reply → Except JsError Unit

/-- Effects of the handler other than its replies and its table updates. -/
inductive Effect where
  /-- The call `interaction.deferReply` (line 145). -/
  | deferReply
  /-- The call `interaction.user.send(text)`, and whether it was delivered. -/
  | directMessage (user : Snowflake) (text : String) (delivered : Bool)
  /-- The call of the username lookup of the Profile Directory. -/
  | usernameLookup (robloxUsername : String)
  /-- The call of the profile fetch of the Profile Directory. -/
  | profileFetch (robloxId : Nat)
  /-- The call `guild.members.fetch(client.user.id)`. -/
  | membersFetch (guild : Snowflake)
  /-- The call `member.roles.add(role)`, and whether it went through. -/
  | rolesAdd (guild : Snowflake) (member : Snowflake) (role : Role) (granted : Bool)
  /-- The call `console.error(error)` of the catch block (line 172). -/
  | consoleError (error : JsError)
deriving DecidableEq, Repr

/-- Result of one run of the handler. -/
structure Outcome where
  /-- The tables when the handler ends. -/
  bot : Bot
  /-- The replies issued through `interaction.reply` and
  `interaction.editReply`, in order, each with whether it was delivered. -/
  replies : List (Reply × Bool)
  /-- The other calls made, in order. -/
  effects : List Effect

/-- The reply that the handler issues first, that is, the reply statement
which its control flow reaches first. -/
def Outcome.reply (o : Outcome) : Option Reply :=
  o.replies.head?.map Prod.fst

/-- The reply that the user ends up with: the last one that was delivered. -/
def Outcome.shown (o : Outcome) : Option Reply :=
  (o.replies.filter (fun r => r.2)).getLast?.map Prod.fst

/-! ## JavaScript primitives used by the handler -/

/-- The call `map.set(key, value)`. -/
def mapSet {V : Type} (m : Snowflake → Option V) (key : Snowflake) (value : V) :
    Snowflake → Option V :=
  fun k => if k = key then some value else m k

/-- The call `map.delete(key)`. -/
def mapDelete {V : Type} (m : Snowflake → Option V) (key : Snowflake) :
    Snowflake → Option V :=
  fun k => if k = key then none else m k

/-- Truthiness of a possibly undefined string: `undefined` and `""` are falsy. -/
def truthy : Option String → Bool
  | none => false
  | some s => s != ""

/-- On character lists, `includes hay needle` tells whether `needle` starts
at some index of `hay` (`String.prototype.includes` with position 0). -/
def includesChars : List Char → List Char → Bool
  | [], needle => needle.isEmpty
  | c :: cs, needle => needle.isPrefixOf (c :: cs) || includesChars cs needle

/-- The call `hay.includes(needle)` on strings. -/
def includes (hay needle : String) : Bool :=
  includesChars hay.data needle.data

/-- The test `description && description.includes(phrase)` (line 158). -/
def descriptionIncludes (description : Option String) (phrase : String) : Bool :=
  match description with
  | none => false
  | some d => d != "" && includes d phrase

/-- The call `guild.roles.cache.get(id)`; `get(undefined)` finds nothing. -/
def rolesCacheGet (g : Guild) : Option Snowflake → Option Role
  | none => none
  | some rid => g.roles.find? (fun r => r.id == rid)

/-- The call `guild.roles.cache.find(r => r.name === 'Verified')` (line 179). -/
def findVerifiedRole (g : Guild) : Option Role :=
  g.roles.find? (fun r => r.name == "Verified")

/-- The template literal of line 123. -/
def randomPhrase (w : World) : String :=
  "Robuddie-" ++ w.randomSuffix

/-- The text of the private message of lines 128-131. -/
def dmText (guildName phrase : String) : String :=
  "### Verification for \"" ++ guildName ++ "\"\n\n" ++
  "1. **Copy this unique code:** `" ++ phrase ++ "`\n" ++
  "2. **Paste it** into your Roblox \"About\" section.\n" ++
  "3. Go back to the server and use the `/done` command."

/-- Successful grants among the effects: member and role. -/
def grants : List Effect → List (Snowflake × Role)
  | [] => []
  | Effect.rolesAdd _ m r true :: es => (m, r) :: grants es
  | _ :: es => grants es

/-- Calls of the Profile Directory among the effects. -/
def profileCalls : List Effect → Nat
  | [] => 0
  | Effect.usernameLookup _ :: es => profileCalls es + 1
  | Effect.profileFetch _ :: es => profileCalls es + 1
  | _ :: es => profileCalls es

/-- Private messages attempted among the effects. -/
def directMessages : List Effect → Nat
  | [] => 0
  | Effect.directMessage _ _ _ :: es => directMessages es + 1
  | _ :: es => directMessages es

/-- Whether the reply `r` is delivered, that is, whether `interaction.reply`
or `interaction.editReply` resolves for it. -/
def delivered (w : World) (r : Reply) : Bool :=
  match w.replySend r with
  | Except.ok _ => true
  | Except.error _ => false

/-! ## The handlers -/

/-- The `verify` branch (lines 116-137).  The reply of line 133 is awaited
in the same try block as `user.send`: when it rejects, the catch block issues
the reply of line 135. -/
def verify (b : Bot) (w : World) (i : Interaction) (robloxUsername : String) : Outcome :=
  match b.serverSettings i.guild.id with
  | none => ⟨b, [(Reply.notConfigured, delivered w Reply.notConfigured)], []⟩
  | some settings =>
    if truthy settings.verifiedRoleId = false then
      ⟨b, [(Reply.notConfigured, delivered w Reply.notConfigured)], []⟩
    else
      let phrase := randomPhrase w
      let b1 : Bot :=
        ⟨mapSet b.verificationStore i.user ⟨robloxUsername, phrase⟩, b.serverSettings⟩
      let text := dmText i.guild.name phrase
      match w.userSend i.user text with
      | Except.ok _ =>
        match w.replySend Reply.checkDMs with
        | Except.ok _ =>
          ⟨b1, [(Reply.checkDMs, true)], [Effect.directMessage i.user text true]⟩
        | Except.error _ =>
          ⟨b1, [(Reply.checkDMs, false),
              (Reply.deliveryFailed, delivered w Reply.deliveryFailed)],
            [Effect.directMessage i.user text true]⟩
      | Except.error _ =>
        ⟨b1, [(Reply.deliveryFailed, delivered w Reply.deliveryFailed)],
          [Effect.directMessage i.user text false]⟩

/-- The catch block of the `done` branch (lines 171-174), reached with the
tables `b`, after the replies `issued` and the effects `sofar`. -/
def doneCatch (w : World) (b : Bot) (issued : List (Reply × Bool)) (sofar : List Effect)
    (e : JsError) : Outcome :=
  ⟨b, issued ++ [(Reply.externalServiceUnavailable,
      delivered w Reply.externalServiceUnavailable)],
    sofar ++ [Effect.consoleError e]⟩

/-- The statement `await interaction.editReply(r)` inside the try block of the
`done` branch (lines 164, 166, 169), reached with the tables `b` after the
effects `sofar`: when the call rejects, control passes to the catch block. -/
def doneReply (w : World) (b : Bot) (sofar : List Effect) (r : Reply) : Outcome :=
  match w.replySend r with
  | Except.ok _ => ⟨b, [(r, true)], sofar⟩
  | Except.error e => doneCatch w b [(r, false)] sofar e

/-- The role step of the `done` branch (lines 159-167), entered after the
effects `sofar` when the phrase test of line 158 passed. -/
def roleStep (b : Bot) (w : World) (i : Interaction) (robloxUsername : String)
    (sofar : List Effect) : Outcome :=
  match b.serverSettings i.guild.id with
  | none =>
    doneCatch w b [] sofar
      (JsError.typeError "Cannot read properties of undefined (reading 'verifiedRoleId')")
  | some settings =>
    match rolesCacheGet i.guild settings.verifiedRoleId with
    | some role =>
      match w.rolesAdd i.guild.id i.user role with
      | Except.ok _ =>
        doneReply w ⟨mapDelete b.verificationStore i.user, b.serverSettings⟩
          (sofar ++ [Effect.rolesAdd i.guild.id i.user role true])
          (Reply.success robloxUsername role.name)
      | Except.error e =>
        doneCatch w b [] (sofar ++ [Effect.rolesAdd i.guild.id i.user role false]) e
    | none => doneReply w b sofar Reply.roleMissing

/-- The `done` branch (lines 139-175).  The reply of line 151 is returned
without being awaited, so its rejection does not enter the catch block. -/
def done (b : Bot) (w : World) (i : Interaction) : Outcome :=
  match b.verificationStore i.user with
  | none => ⟨b, [(Reply.noPendingSession, delivered w Reply.noPendingSession)], []⟩
  | some verificationData =>
    let robloxUsername := verificationData.robloxUsername
    let phrase := verificationData.phrase
    let e1 := [Effect.deferReply, Effect.usernameLookup robloxUsername]
    match w.usernamesUsers robloxUsername with
    | Except.error e => doneCatch w b [] e1 e
    | Except.ok [] =>
      ⟨b, [(Reply.externalAccountNotFound robloxUsername,
          delivered w (Reply.externalAccountNotFound robloxUsername))], e1⟩
    | Except.ok (first :: _) =>
      let robloxId := first.id
      let e2 := e1 ++ [Effect.profileFetch robloxId]
      match w.usersGet robloxId with
      | Except.error e => doneCatch w b [] e2 e
      | Except.ok description =>
        if descriptionIncludes description phrase then
          roleStep b w i robloxUsername e2
        else
          doneReply w b e2 Reply.phraseNotFound

/-- The `setup` branch (lines 178-191).  When `guild.members.fetch` rejects
the handler ends without a reply. -/
def setup (b : Bot) (w : World) (i : Interaction) : Outcome :=
  match findVerifiedRole i.guild with
  | none => ⟨b, [(Reply.verifiedRoleNotFound, delivered w Reply.verifiedRoleNotFound)], []⟩
  | some role =>
    match w.botHighestPosition i.guild.id with
    | Except.error _ => ⟨b, [], [Effect.membersFetch i.guild.id]⟩
    | Except.ok highest =>
      if highest ≤ role.position then
        ⟨b, [(Reply.botRoleTooLow, delivered w Reply.botRoleTooLow)],
          [Effect.membersFetch i.guild.id]⟩
      else
        ⟨⟨b.verificationStore, mapSet b.serverSettings i.guild.id ⟨some role.id⟩⟩,
          [(Reply.setupComplete, delivered w Reply.setupComplete)],
          [Effect.membersFetch i.guild.id]⟩

/-- The `ping` branch (lines 95-99): the edit of line 98 follows the reply of
line 96 when that one resolved. -/
def ping (b : Bot) (w : World) : Outcome :=
  match w.replySend Reply.pinging with
  | Except.ok _ => ⟨b, [(Reply.pinging, true), (Reply.pong, delivered w Reply.pong)], []⟩
  | Except.error _ => ⟨b, [(Reply.pinging, false)], []⟩

/-- The handler of `interactionCreate` (lines 90-201).  The `forceverify`
branch (lines 193-195) is empty in the source. -/
def interactionCreate (b : Bot) (w : World) (i : Interaction) : Outcome :=
  if i.isChatInputCommand = false then ⟨b, [], []⟩
  else
    match i.command with
    | Command.ping => ping b w
    | Command.help => ⟨b, [(Reply.help, delivered w Reply.help)], []⟩
    | Command.verify robloxUsername => verify b w i robloxUsername
    | Command.done => done b w i
    | Command.setup => setup b w i
    | Command.forceverify _ _ => ⟨b, [], []⟩
    | Command.premium => ⟨b, [(Reply.premium, delivered w Reply.premium)], []⟩

/-- The tables at start-up: both maps are empty (lines 10-11). -/
def Bot.start : Bot :=
  ⟨fun _ => none, fun _ => none⟩

/-- States of the tables that the running bot can be in. -/
inductive Reachable : Bot → Prop where
  | start : Reachable Bot.start
  | step {b : Bot} (w : World) (i : Interaction) :
      Reachable b → Reachable (interactionCreate b w i).bot

/-- The phrase `needle` occurs in `hay` as a contiguous run of characters. -/
def IsSubstring (needle hay : String) : Prop :=
  needle.data <:+: hay.data

/-! ## Sample inputs

Requester 42 claims the account "Bob123" in community 7, whose role 900 is
named "Verified"; community 9 was never set up. -/

/-- Community 7 with its "Verified" role. -/
def guild7 : Guild := ⟨"7", "Seven", [⟨"900", "Verified", 1⟩]⟩

/-- Community 7 after its "Verified" role was deleted. -/
def guild7NoRole : Guild := ⟨"7", "Seven", []⟩

/-- Community 9, without any role. -/
def guild9 : Guild := ⟨"9", "Nine", []⟩

/-- A world where every call goes through, the lookup finds account 1 and
the profile text is `description`. -/
def calmWorld (description : Option String) : World where
  randomSuffix := "k3x9q2ab"
  userSend := fun _ _ => Except.ok ()
  usernamesUsers := fun n => Except.ok [⟨1, n⟩]
  usersGet := fun _ => Except.ok description
  botHighestPosition := fun _ => Except.ok 5
  rolesAdd := fun _ _ _ => Except.ok ()
  replySend := fun _ => Except.ok ()

/-- A world like `calmWorld`, except that the first reply of a successful
run is rejected: "Check your DMs!" (line 133) and "Success!" (line 164) do
not go out, every other reply does. -/
def lateWorld (description : Option String) : World where
  randomSuffix := "k3x9q2ab"
  userSend := fun _ _ => Except.ok ()
  usernamesUsers := fun n => Except.ok [⟨1, n⟩]
  usersGet := fun _ => Except.ok description
  botHighestPosition := fun _ => Except.ok 5
  rolesAdd := fun _ _ _ => Except.ok ()
  replySend := fun r =>
    match r with
    | Reply.checkDMs => Except.error (JsError.rejected "socket hang up")
    | Reply.success _ _ => Except.error (JsError.rejected "socket hang up")
    | _ => Except.ok ()

/-- A world like `calmWorld`, except that private messages and role grants
are rejected. -/
def closedWorld (description : Option String) : World where
  randomSuffix := "k3x9q2ab"
  userSend := fun _ _ => Except.error (JsError.rejected "Cannot send messages to this user")
  usernamesUsers := fun n => Except.ok [⟨1, n⟩]
  usersGet := fun _ => Except.ok description
  botHighestPosition := fun _ => Except.ok 5
  rolesAdd := fun _ _ _ => Except.error (JsError.rejected "Missing Permissions")
  replySend := fun _ => Except.ok ()

/-- An administrator runs `/setup` in community 7. -/
def setupIn7 : Interaction := ⟨true, Command.setup, "1", guild7⟩

/-- Requester 42 runs `/verify Bob123` in community 7. -/
def verifyIn7 : Interaction := ⟨true, Command.verify "Bob123", "42", guild7⟩

/-- Requester 42 runs `/done` in community 7. -/
def doneIn7 : Interaction := ⟨true, Command.done, "42", guild7⟩

/-- Requester 42 runs `/done` in community 7 after the role was deleted. -/
def doneIn7NoRole : Interaction := ⟨true, Command.done, "42", guild7NoRole⟩

/-- Requester 42 runs `/verify Bob123` in community 7 after the role was
deleted. -/
def verifyIn7NoRole : Interaction := ⟨true, Command.verify "Bob123", "42", guild7NoRole⟩

/-- Requester 42 runs `/verify Bob123` in community 9. -/
def verifyIn9 : Interaction := ⟨true, Command.verify "Bob123", "42", guild9⟩

/-- Requester 42 runs `/done` in community 9. -/
def doneIn9 : Interaction := ⟨true, Command.done, "42", guild9⟩

/-- The tables after `/setup` in community 7. -/
def configuredBot : Bot := (interactionCreate Bot.start (calmWorld none) setupIn7).bot

/-- The tables after `/setup` and then `/verify Bob123` by requester 42. -/
def pendingBot : Bot := (interactionCreate configuredBot (calmWorld none) verifyIn7).bot

/-- Every stored phrase came out of the template literal of line 123. -/
def PhrasesIssued (b : Bot) : Prop :=
  ∀ u s, b.verificationStore u = some s → ∃ suffix : String, s.phrase = "Robuddie-" ++ suffix

/-! ## Auxiliary lemmas -/

theorem mapSet_same {V : Type} (m : Snowflake → Option V) (key : Snowflake) (value : V) :
    mapSet m key value key = some value := by
  unfold mapSet
  simp

theorem mapSet_other {V : Type} (m : Snowflake → Option V) (key : Snowflake) (value : V)
    {k : Snowflake} (h : k ≠ key) : mapSet m key value k = m k := by
  unfold mapSet
  simp [h]

theorem mapDelete_same {V : Type} (m : Snowflake → Option V) (key : Snowflake) :
    mapDelete m key key = none := by
  unfold mapDelete
  simp

theorem mapDelete_other {V : Type} (m : Snowflake → Option V) (key : Snowflake)
    {k : Snowflake} (h : k ≠ key) : mapDelete m key k = m k := by
  unfold mapDelete
  simp [h]

theorem includesChars_iff (hay needle : List Char) :
    includesChars hay needle = true ↔ needle <:+: hay := by
  induction hay with
  | nil => simp [includesChars, List.isEmpty_iff]
  | cons c cs ih =>
    simp only [includesChars, Bool.or_eq_true, ih, List.infix_cons_iff,
      List.isPrefixOf_iff_prefix]

theorem includes_iff (hay needle : String) :
    includes hay needle = true ↔ IsSubstring needle hay := by
  unfold includes IsSubstring
  exact includesChars_iff hay.data needle.data

theorem issued_ne_empty (suffix : String) : "Robuddie-" ++ suffix ≠ "" := by
  intro h
  have h2 := congrArg String.data h
  rw [String.data_append] at h2
  simp at h2

theorem not_isSubstring_empty {p : String} (hp : p ≠ "") : ¬ IsSubstring p "" := by
  intro h
  unfold IsSubstring at h
  have h2 : p.data = [] := by simpa using h
  apply hp
  cases p
  simp_all

theorem descriptionIncludes_iff (description : Option String) {p : String} (hp : p ≠ "") :
    descriptionIncludes description p = true ↔
      ∃ d, description = some d ∧ IsSubstring p d := by
  cases description with
  | none => simp [descriptionIncludes]
  | some d =>
    simp only [descriptionIncludes, Bool.and_eq_true, includes_iff, Option.some.injEq,
      exists_eq_left', bne_iff_ne, ne_eq]
    constructor
    · exact fun h => h.2
    · intro h
      refine ⟨?_, h⟩
      intro hd
      subst hd
      exact not_isSubstring_empty hp h

theorem doneCatch_bot (w : World) (b : Bot) (issued : List (Reply × Bool))
    (sofar : List Effect) (e : JsError) : (doneCatch w b issued sofar e).bot = b :=
  rfl

theorem doneReply_bot (w : World) (b : Bot) (sofar : List Effect) (r : Reply) :
    (doneReply w b sofar r).bot = b := by
  unfold doneReply
  split <;> rfl

theorem doneReply_reply (w : World) (b : Bot) (sofar : List Effect) (r : Reply) :
    (doneReply w b sofar r).reply = some r := by
  unfold doneReply
  split <;> rfl

theorem verify_store (b : Bot) (w : World) (i : Interaction) (n : String) :
    (verify b w i n).bot = b ∨
      (verify b w i n).bot =
        ⟨mapSet b.verificationStore i.user ⟨n, randomPhrase w⟩, b.serverSettings⟩ := by
  unfold verify
  dsimp only
  split
  · exact Or.inl rfl
  · split
    · exact Or.inl rfl
    · split
      · split <;> exact Or.inr rfl
      · exact Or.inr rfl

theorem roleStep_store (b : Bot) (w : World) (i : Interaction) (n : String)
    (sofar : List Effect) :
    (roleStep b w i n sofar).bot = b ∨
      (roleStep b w i n sofar).bot = ⟨mapDelete b.verificationStore i.user, b.serverSettings⟩ := by
  unfold roleStep
  split
  · exact Or.inl rfl
  · split
    · split
      · exact Or.inr (doneReply_bot _ _ _ _)
      · exact Or.inl rfl
    · exact Or.inl (doneReply_bot _ _ _ _)

theorem done_store (b : Bot) (w : World) (i : Interaction) :
    (done b w i).bot = b ∨
      (done b w i).bot = ⟨mapDelete b.verificationStore i.user, b.serverSettings⟩ := by
  unfold done
  dsimp only
  split
  · exact Or.inl rfl
  · split
    · exact Or.inl rfl
    · exact Or.inl rfl
    · split
      · exact Or.inl rfl
      · split
        · exact roleStep_store _ _ _ _ _
        · exact Or.inl (doneReply_bot _ _ _ _)

theorem setup_store (b : Bot) (w : World) (i : Interaction) :
    (setup b w i).bot.verificationStore = b.verificationStore := by
  unfold setup
  split
  · rfl
  · split
    · rfl
    · split <;> rfl

theorem phrasesIssued_step (b : Bot) (w : World) (i : Interaction) (h : PhrasesIssued b) :
    PhrasesIssued (interactionCreate b w i).bot := by
  unfold interactionCreate
  split
  · exact h
  · split
    · unfold ping
      split <;> exact h
    · exact h
    · rename_i n _
      rcases verify_store b w i n with e | e
      · rw [e]; exact h
      · rw [e]
        intro u s hs
        simp only [mapSet] at hs
        split at hs
        · cases hs
          exact ⟨w.randomSuffix, rfl⟩
        · exact h u s hs
    · rcases done_store b w i with e | e
      · rw [e]; exact h
      · rw [e]
        intro u s hs
        simp only [mapDelete] at hs
        split at hs
        · cases hs
        · exact h u s hs
    · intro u s hs
      rw [setup_store] at hs
      exact h u s hs
    · exact h
    · exact h

theorem phrasesIssued_of_reachable {b : Bot} (h : Reachable b) : PhrasesIssued b := by
  induction h with
  | start => intro u s hs; cases hs
  | step w i _ ih => exact phrasesIssued_step _ w i ih

theorem phrase_ne_empty {b : Bot} (h : Reachable b) {u : Snowflake} {s : Session}
    (hs : b.verificationStore u = some s) : s.phrase ≠ "" := by
  obtain ⟨suffix, e⟩ := phrasesIssued_of_reachable h u s hs
  rw [e]
  exact issued_ne_empty suffix

theorem grants_append (xs ys : List Effect) :
    grants (xs ++ ys) = grants xs ++ grants ys := by
  induction xs with
  | nil => rfl
  | cons x xs ih =>
    cases x with
    | rolesAdd g m r granted => cases granted <;> simp [grants, ih]
    | _ => simp [grants, ih]

theorem doneReply_grants (w : World) (b : Bot) (sofar : List Effect) (r : Reply) :
    grants (doneReply w b sofar r).effects = grants sofar := by
  unfold doneReply
  split
  · rfl
  · simp [doneCatch, grants_append, grants]

theorem roleStep_cases (b : Bot) (w : World) (i : Interaction) (n : String)
    (sofar : List Effect) (hs : grants sofar = []) :
    (∃ role, (roleStep b w i n sofar).reply = some (Reply.success n role.name) ∧
        (roleStep b w i n sofar).bot =
          ⟨mapDelete b.verificationStore i.user, b.serverSettings⟩ ∧
        grants (roleStep b w i n sofar).effects = [(i.user, role)]) ∨
      (((roleStep b w i n sofar).reply = some Reply.roleMissing ∨
          (roleStep b w i n sofar).reply = some Reply.externalServiceUnavailable) ∧
        (roleStep b w i n sofar).bot = b ∧
        grants (roleStep b w i n sofar).effects = []) := by
  unfold roleStep
  split
  · exact Or.inr ⟨Or.inr rfl, rfl, by simp [doneCatch, grants_append, hs, grants]⟩
  · split
    · rename_i role _
      split
      · exact Or.inl ⟨role, doneReply_reply _ _ _ _, doneReply_bot _ _ _ _,
          by rw [doneReply_grants]; simp [grants_append, hs, grants]⟩
      · exact Or.inr ⟨Or.inr rfl, rfl, by simp [doneCatch, grants_append, hs, grants]⟩
    · exact Or.inr ⟨Or.inl (doneReply_reply _ _ _ _), doneReply_bot _ _ _ _,
        by rw [doneReply_grants]; exact hs⟩

theorem done_no_session (b : Bot) (w : World) (i : Interaction)
    (h : b.verificationStore i.user = none) :
    done b w i =
      ⟨b, [(Reply.noPendingSession, delivered w Reply.noPendingSession)], []⟩ := by
  unfold done
  simp only [h]

/-- The run of `done` up to and including the phrase test of line 158. -/
theorem done_checked (b : Bot) (w : World) (i : Interaction) {s : Session}
    {first : RobloxUser} {rest : List RobloxUser} {description : Option String}
    (hs : b.verificationStore i.user = some s)
    (hl : w.usernamesUsers s.robloxUsername = Except.ok (first :: rest))
    (hf : w.usersGet first.id = Except.ok description) :
    done b w i =
      if descriptionIncludes description s.phrase = true then
        roleStep b w i s.robloxUsername
          [Effect.deferReply, Effect.usernameLookup s.robloxUsername,
            Effect.profileFetch first.id]
      else
        doneReply w b
          [Effect.deferReply, Effect.usernameLookup s.robloxUsername,
            Effect.profileFetch first.id] Reply.phraseNotFound := by
  unfold done
  simp only [hs, hl, hf, List.cons_append, List.nil_append]

theorem done_cases (b : Bot) (w : World) (i : Interaction) :
    (∃ s role, b.verificationStore i.user = some s ∧
        (done b w i).reply = some (Reply.success s.robloxUsername role.name) ∧
        (done b w i).bot = ⟨mapDelete b.verificationStore i.user, b.serverSettings⟩ ∧
        grants (done b w i).effects = [(i.user, role)]) ∨
      ((∀ n r, (done b w i).reply ≠ some (Reply.success n r)) ∧
        (done b w i).bot = b ∧
        grants (done b w i).effects = []) := by
  cases hs : b.verificationStore i.user with
  | none =>
    rw [done_no_session b w i hs]
    exact Or.inr ⟨by simp [Outcome.reply], rfl, rfl⟩
  | some s =>
    cases hl : w.usernamesUsers s.robloxUsername with
    | error e =>
      refine Or.inr ⟨?_, ?_, ?_⟩ <;>
        simp [done, hs, hl, doneCatch, grants, Outcome.reply]
    | ok found =>
      cases found with
      | nil =>
        refine Or.inr ⟨?_, ?_, ?_⟩ <;>
          simp [done, hs, hl, grants, Outcome.reply]
      | cons first rest =>
        cases hf : w.usersGet first.id with
        | error e =>
          refine Or.inr ⟨?_, ?_, ?_⟩ <;>
            simp [done, hs, hl, hf, doneCatch, grants, Outcome.reply]
        | ok description =>
          rw [done_checked b w i hs hl hf]
          split
          · rcases roleStep_cases b w i s.robloxUsername
                [Effect.deferReply, Effect.usernameLookup s.robloxUsername,
                  Effect.profileFetch first.id] (by simp [grants]) with
              ⟨role, h1, h2, h3⟩ | ⟨h1, h2, h3⟩
            · exact Or.inl ⟨s, role, rfl, h1, h2, h3⟩
            · refine Or.inr ⟨?_, h2, h3⟩
              intro n r hr
              rcases h1 with h1 | h1 <;> rw [h1] at hr <;> cases hr
          · refine Or.inr ⟨?_, doneReply_bot _ _ _ _, ?_⟩
            · intro n r hr
              rw [doneReply_reply] at hr
              cases hr
            · rw [doneReply_grants]
              simp [grants]

/-- The tables after `verify` in a configured community. -/
theorem verify_tables (b : Bot) (w : World) (i : Interaction) (n : String)
    (settings : Settings) (h1 : b.serverSettings i.guild.id = some settings)
    (h2 : truthy settings.verifiedRoleId = true) :
    (verify b w i n).bot.verificationStore i.user = some ⟨n, randomPhrase w⟩ ∧
    (verify b w i n).bot.serverSettings = b.serverSettings := by
  have hc : ¬ truthy settings.verifiedRoleId = false := by simp [h2]
  unfold verify
  simp only [h1, if_neg hc]
  split
  · split <;> exact ⟨mapSet_same _ _ _, rfl⟩
  · exact ⟨mapSet_same _ _ _, rfl⟩

theorem reachable_configuredBot : Reachable configuredBot :=
  Reachable.step (calmWorld none) setupIn7 Reachable.start

/-- The run of `done` that ends in a grant. -/
theorem done_granted (b : Bot) (w : World) (i : Interaction) {s : Session}
    {first : RobloxUser} {rest : List RobloxUser} {d : String} {settings : Settings}
    {role : Role}
    (hs : b.verificationStore i.user = some s)
    (hl : w.usernamesUsers s.robloxUsername = Except.ok (first :: rest))
    (hf : w.usersGet first.id = Except.ok (some d))
    (hne : s.phrase ≠ "") (hp : IsSubstring s.phrase d)
    (hset : b.serverSettings i.guild.id = some settings)
    (hrole : rolesCacheGet i.guild settings.verifiedRoleId = some role)
    (hadd : w.rolesAdd i.guild.id i.user role = Except.ok ()) :
    done b w i =
      doneReply w ⟨mapDelete b.verificationStore i.user, b.serverSettings⟩
        [Effect.deferReply, Effect.usernameLookup s.robloxUsername,
          Effect.profileFetch first.id, Effect.rolesAdd i.guild.id i.user role true]
        (Reply.success s.robloxUsername role.name) := by
  have hinc : descriptionIncludes (some d) s.phrase = true :=
    (descriptionIncludes_iff (some d) hne).mpr ⟨d, rfl, hp⟩
  rw [done_checked b w i hs hl hf, if_pos hinc]
  unfold roleStep
  simp only [hset, hrole, hadd, List.cons_append, List.nil_append]

/-- The run of `done` that finds the configured role deleted. -/
theorem done_role_missing (b : Bot) (w : World) (i : Interaction) {s : Session}
    {first : RobloxUser} {rest : List RobloxUser} {d : String} {settings : Settings}
    (hs : b.verificationStore i.user = some s)
    (hl : w.usernamesUsers s.robloxUsername = Except.ok (first :: rest))
    (hf : w.usersGet first.id = Except.ok (some d))
    (hne : s.phrase ≠ "") (hp : IsSubstring s.phrase d)
    (hset : b.serverSettings i.guild.id = some settings)
    (hrole : rolesCacheGet i.guild settings.verifiedRoleId = none) :
    done b w i =
      doneReply w b
        [Effect.deferReply, Effect.usernameLookup s.robloxUsername,
          Effect.profileFetch first.id] Reply.roleMissing := by
  have hinc : descriptionIncludes (some d) s.phrase = true :=
    (descriptionIncludes_iff (some d) hne).mpr ⟨d, rfl, hp⟩
  rw [done_checked b w i hs hl hf, if_pos hinc]
  unfold roleStep
  simp only [hset, hrole]

theorem reachable_pendingBot : Reachable pendingBot :=
  Reachable.step (calmWorld none) verifyIn7
    (Reachable.step (calmWorld none) setupIn7 Reachable.start)

theorem isSubstring_of_includes {needle hay : String} (h : includes hay needle = true) :
    IsSubstring needle hay :=
  (includes_iff hay needle).mp h

/-! ## The claims -/

/-- C2: when `verificationStore` has no entry for the requester, `done`
replies NoPendingSession whatever `serverSettings` holds, calls the Profile
Directory not at all, grants no role and leaves both tables as they were. -/
theorem done_without_session (b : Bot) (w : World) (i : Interaction)
    (h : b.verificationStore i.user = none) :
    (done b w i).reply = some Reply.noPendingSession ∧
    (done b w i).effects = [] ∧
    profileCalls (done b w i).effects = 0 ∧
    grants (done b w i).effects = [] ∧
    (done b w i).bot.verificationStore = b.verificationStore ∧
    (done b w i).bot.serverSettings = b.serverSettings := by
  rw [done_no_session b w i h]
  exact ⟨rfl, rfl, rfl, rfl, rfl, rfl⟩

/-- Witness of C2: requester 42 runs `/done` in the configured community 7
without having run `/verify`. -/
theorem done_without_session_witness :
    configuredBot.verificationStore doneIn7.user = none ∧
    (done configuredBot (calmWorld none) doneIn7).reply = some Reply.noPendingSession ∧
    (done configuredBot (calmWorld none) doneIn7).effects = [] ∧
    profileCalls (done configuredBot (calmWorld none) doneIn7).effects = 0 ∧
    grants (done configuredBot (calmWorld none) doneIn7).effects = [] ∧
    (done configuredBot (calmWorld none) doneIn7).bot.verificationStore =
      configuredBot.verificationStore ∧
    (done configuredBot (calmWorld none) doneIn7).bot.serverSettings =
      configuredBot.serverSettings :=
  ⟨rfl, done_without_session configuredBot (calmWorld none) doneIn7 rfl⟩

/-- C3: in a community without a GuildConfig (no `serverSettings` entry, or
an entry whose `verifiedRoleId` is missing or empty) `verify` replies
NotConfigured, sends no private message and leaves `verificationStore` as it
was; a following `done` by a requester who had no session still replies
NoPendingSession. -/
theorem verify_unconfigured (b : Bot) (w : World) (i : Interaction) (n : String)
    (h : ∀ s, b.serverSettings i.guild.id = some s → truthy s.verifiedRoleId = false) :
    (verify b w i n).reply = some Reply.notConfigured ∧
    (verify b w i n).effects = [] ∧
    directMessages (verify b w i n).effects = 0 ∧
    (verify b w i n).bot.verificationStore = b.verificationStore ∧
    (verify b w i n).bot.serverSettings = b.serverSettings ∧
    ∀ (w2 : World) (i2 : Interaction), b.verificationStore i2.user = none →
      (done (verify b w i n).bot w2 i2).reply = some Reply.noPendingSession := by
  have key : verify b w i n =
      ⟨b, [(Reply.notConfigured, delivered w Reply.notConfigured)], []⟩ := by
    unfold verify
    cases hs : b.serverSettings i.guild.id with
    | none => rfl
    | some s => simp [h s hs]
  rw [key]
  refine ⟨rfl, rfl, rfl, rfl, rfl, ?_⟩
  intro w2 i2 h2
  rw [done_no_session b w2 i2 h2]
  rfl

/-- Witness of C3: requester 42 runs `/verify` in community 9, which was
never set up, and then `/done` there. -/
theorem verify_unconfigured_witness :
    (∀ s, configuredBot.serverSettings verifyIn9.guild.id = some s →
      truthy s.verifiedRoleId = false) ∧
    (verify configuredBot (calmWorld none) verifyIn9 "Bob123").reply =
      some Reply.notConfigured ∧
    (done (verify configuredBot (calmWorld none) verifyIn9 "Bob123").bot
      (calmWorld none) doneIn9).reply = some Reply.noPendingSession :=
  have h : ∀ s, configuredBot.serverSettings verifyIn9.guild.id = some s →
      truthy s.verifiedRoleId = false := fun s hs => by
    have hn : configuredBot.serverSettings verifyIn9.guild.id = none := by decide
    rw [hn] at hs
    cases hs
  have t := verify_unconfigured configuredBot (calmWorld none) verifyIn9 "Bob123" h
  ⟨h, t.1, t.2.2.2.2.2 (calmWorld none) doneIn9 (by decide)⟩

/-- C5: whenever `done` succeeds for a requester the session of that
requester is gone, so a second `done` by the same requester replies
NoPendingSession without any effect, in particular without a further role
grant, and leaves the tables as the first one left them. -/
theorem done_twice (b : Bot) (w : World) (i : Interaction) (n r : String)
    (h : (done b w i).reply = some (Reply.success n r)) :
    (done b w i).bot.verificationStore i.user = none ∧
    ∀ (w2 : World) (i2 : Interaction), i2.user = i.user →
      (done (done b w i).bot w2 i2).reply = some Reply.noPendingSession ∧
      (done (done b w i).bot w2 i2).effects = [] ∧
      grants (done (done b w i).bot w2 i2).effects = [] ∧
      (done (done b w i).bot w2 i2).bot.verificationStore =
        (done b w i).bot.verificationStore ∧
      (done (done b w i).bot w2 i2).bot.serverSettings =
        (done b w i).bot.serverSettings := by
  have gone : (done b w i).bot.verificationStore i.user = none := by
    rcases done_cases b w i with ⟨s, role, _, _, h2, _⟩ | ⟨h1, _, _⟩
    · rw [h2]
      simp [mapDelete]
    · exact absurd h (h1 n r)
  refine ⟨gone, ?_⟩
  intro w2 i2 hu
  rw [← hu] at gone
  rw [done_no_session _ w2 i2 gone]
  exact ⟨rfl, rfl, rfl, rfl, rfl⟩

/-- Witness of C5: requester 42 confirms in community 7 with the phrase in
the profile text, then runs `/done` once more. -/
theorem done_twice_witness :
    (done pendingBot (calmWorld (some "hi Robuddie-k3x9q2ab")) doneIn7).reply =
      some (Reply.success "Bob123" "Verified") ∧
    (done (done pendingBot (calmWorld (some "hi Robuddie-k3x9q2ab")) doneIn7).bot
      (calmWorld (some "hi Robuddie-k3x9q2ab")) doneIn7).reply =
      some Reply.noPendingSession ∧
    grants (done (done pendingBot (calmWorld (some "hi Robuddie-k3x9q2ab")) doneIn7).bot
      (calmWorld (some "hi Robuddie-k3x9q2ab")) doneIn7).effects = [] :=
  have h : (done pendingBot (calmWorld (some "hi Robuddie-k3x9q2ab")) doneIn7).reply =
      some (Reply.success "Bob123" "Verified") := by decide
  have t := (done_twice pendingBot (calmWorld (some "hi Robuddie-k3x9q2ab")) doneIn7
    "Bob123" "Verified" h).2 (calmWorld (some "hi Robuddie-k3x9q2ab")) doneIn7 rfl
  ⟨h, t.1, t.2.2.1⟩

/-- The part of the frame of `done` that does not depend on the replies: the
entry of the requester is removed exactly when a role was granted, which is a
single grant to the requester; without a grant `verificationStore` is
unchanged; the entries of all other requesters and `serverSettings` are
unchanged in every run. -/
theorem done_frame (b : Bot) (w : World) (i : Interaction) :
    ((b.verificationStore i.user ≠ none ∧ (done b w i).bot.verificationStore i.user = none) ↔
      ∃ role, grants (done b w i).effects = [(i.user, role)]) ∧
    (grants (done b w i).effects = [] →
      (done b w i).bot.verificationStore = b.verificationStore) ∧
    (∀ u, u ≠ i.user → (done b w i).bot.verificationStore u = b.verificationStore u) ∧
    (done b w i).bot.serverSettings = b.serverSettings := by
  rcases done_cases b w i with ⟨s, role, h0, _, h2, h3⟩ | ⟨_, h2, h3⟩
  · refine ⟨⟨fun _ => ⟨role, h3⟩, fun _ => ⟨by simp [h0], by rw [h2]; exact mapDelete_same _ _⟩⟩,
      ?_, ?_, ?_⟩
    · intro hg
      rw [h3] at hg
      cases hg
    · intro u hu
      rw [h2]
      exact mapDelete_other _ _ hu
    · rw [h2]
  · refine ⟨⟨fun hh => ?_, fun hh => ?_⟩, fun _ => by rw [h2], fun u _ => by rw [h2],
      by rw [h2]⟩
    · rw [h2] at hh
      exact absurd hh.2 hh.1
    · rw [h3] at hh
      obtain ⟨_, hh⟩ := hh
      cases hh

/-- The run of `done` in which the success reply of line 164 rejects: the
role is granted and the entry deleted (lines 162-163), then the catch block
issues the reply of line 173. -/
theorem done_granted_reply_rejected (b : Bot) (w : World) (i : Interaction) {s : Session}
    {first : RobloxUser} {rest : List RobloxUser} {d : String} {settings : Settings}
    {role : Role} {e : JsError}
    (hs : b.verificationStore i.user = some s)
    (hl : w.usernamesUsers s.robloxUsername = Except.ok (first :: rest))
    (hf : w.usersGet first.id = Except.ok (some d))
    (hne : s.phrase ≠ "") (hp : IsSubstring s.phrase d)
    (hset : b.serverSettings i.guild.id = some settings)
    (hrole : rolesCacheGet i.guild settings.verifiedRoleId = some role)
    (hadd : w.rolesAdd i.guild.id i.user role = Except.ok ())
    (hrej : w.replySend (Reply.success s.robloxUsername role.name) = Except.error e) :
    (done b w i).replies =
      [(Reply.success s.robloxUsername role.name, false),
        (Reply.externalServiceUnavailable, delivered w Reply.externalServiceUnavailable)] ∧
    (done b w i).bot.verificationStore i.user = none ∧
    grants (done b w i).effects = [(i.user, role)] := by
  rw [done_granted b w i hs hl hf hne hp hset hrole hadd]
  unfold doneReply
  rw [hrej]
  exact ⟨rfl, mapDelete_same _ _, by simp [doneCatch, grants]⟩

/-- The part of `verify` in a configured community that does not depend on
the replies being delivered: the session of the requester is written, the
sessions of all other requesters and `serverSettings` are unchanged, one
private message is attempted; when the send fails the only reply issued is
the DeliveryFailed text, and when it goes through the first reply issued is
"Check your DMs!". -/
theorem verify_frame (b : Bot) (w : World) (i : Interaction) (n : String)
    (settings : Settings) (h1 : b.serverSettings i.guild.id = some settings)
    (h2 : truthy settings.verifiedRoleId = true) :
    (verify b w i n).bot.verificationStore i.user = some ⟨n, randomPhrase w⟩ ∧
    (∀ u, u ≠ i.user → (verify b w i n).bot.verificationStore u = b.verificationStore u) ∧
    (verify b w i n).bot.serverSettings = b.serverSettings ∧
    directMessages (verify b w i n).effects = 1 ∧
    ((∃ e, w.userSend i.user (dmText i.guild.name (randomPhrase w)) = Except.error e) →
      (verify b w i n).replies =
        [(Reply.deliveryFailed, delivered w Reply.deliveryFailed)]) ∧
    (w.userSend i.user (dmText i.guild.name (randomPhrase w)) = Except.ok () →
      (verify b w i n).reply = some Reply.checkDMs) := by
  have hc : ¬ truthy settings.verifiedRoleId = false := by simp [h2]
  unfold verify
  simp only [h1, if_neg hc]
  cases hd : w.userSend i.user (dmText i.guild.name (randomPhrase w)) with
  | error e =>
    exact ⟨mapSet_same _ _ _, fun u hu => mapSet_other _ _ _ hu, rfl, rfl,
      fun _ => rfl, fun h => nomatch h⟩
  | ok u =>
    cases hr : w.replySend Reply.checkDMs with
    | error e =>
      exact ⟨mapSet_same _ _ _, fun u hu => mapSet_other _ _ _ hu, rfl, rfl,
        (fun ⟨_, h⟩ => nomatch h), fun _ => rfl⟩
    | ok u2 =>
      exact ⟨mapSet_same _ _ _, fun u hu => mapSet_other _ _ _ hu, rfl, rfl,
        (fun ⟨_, h⟩ => nomatch h), fun _ => rfl⟩

/-- The run of `verify` in which the private message is delivered and the
reply of line 133 rejects: the catch block issues the reply of line 135. -/
theorem verify_ack_rejected (b : Bot) (w : World) (i : Interaction) (n : String)
    {settings : Settings} {e : JsError}
    (h1 : b.serverSettings i.guild.id = some settings)
    (h2 : truthy settings.verifiedRoleId = true)
    (hsend : w.userSend i.user (dmText i.guild.name (randomPhrase w)) = Except.ok ())
    (hrej : w.replySend Reply.checkDMs = Except.error e) :
    (verify b w i n).replies =
      [(Reply.checkDMs, false), (Reply.deliveryFailed, delivered w Reply.deliveryFailed)] ∧
    (verify b w i n).effects =
      [Effect.directMessage i.user (dmText i.guild.name (randomPhrase w)) true] := by
  constructor <;> simp [verify, h1, h2, hsend, hrej]

/-- The `forceverify` branch (lines 193-195) holds a comment only: the command
that lines 57-62 register as "Manually verifies a user and links them to a
Roblox account." gives no reply, grants no role and writes no table. -/
theorem forceverify_empty (b : Bot) (w : World) (i : Interaction) (user n : String)
    (h1 : i.isChatInputCommand = true) (h2 : i.command = Command.forceverify user n) :
    (interactionCreate b w i).bot = b ∧
    (interactionCreate b w i).replies = [] ∧
    (interactionCreate b w i).effects = [] := by
  unfold interactionCreate
  simp [h1, h2]

/-- C6, the code at the failing input: requester 42 has a pending session,
the profile text contains the phrase, role 900 exists and `roles.add` goes
through, but the success reply of line 164 is rejected.  The role is granted
and the entry of the requester is removed, and yet the replies issued are the
success text, undelivered, followed by the ExternalServiceUnavailable text of
the catch block, which is what the requester is shown. -/
theorem done_success_reply_rejected :
    Reachable pendingBot ∧
    pendingBot.verificationStore "42" = some ⟨"Bob123", "Robuddie-k3x9q2ab"⟩ ∧
    (done pendingBot (lateWorld (some "hi Robuddie-k3x9q2ab")) doneIn7).replies =
      [(Reply.success "Bob123" "Verified", false),
        (Reply.externalServiceUnavailable, true)] ∧
    (done pendingBot (lateWorld (some "hi Robuddie-k3x9q2ab")) doneIn7).shown =
      some Reply.externalServiceUnavailable ∧
    grants (done pendingBot (lateWorld (some "hi Robuddie-k3x9q2ab")) doneIn7).effects =
      [("42", ⟨"900", "Verified", 1⟩)] ∧
    (done pendingBot (lateWorld (some "hi Robuddie-k3x9q2ab")) doneIn7).bot.verificationStore
      "42" = none ∧
    (done (done pendingBot (lateWorld (some "hi Robuddie-k3x9q2ab")) doneIn7).bot
      (calmWorld (some "hi Robuddie-k3x9q2ab")) doneIn7).replies =
      [(Reply.noPendingSession, true)] :=
  ⟨reachable_pendingBot, by decide, by decide, by decide, by decide, by decide, by decide⟩

/-- C7, the code at the failing input: in the configured community 7 the
private message to requester 42 is delivered, but the reply of line 133 is
rejected.  The session is stored, and the replies issued are the "Check your
DMs!" text, undelivered, followed by the DeliveryFailed text of the catch
block, which is what the requester is shown although the send did not fail. -/
theorem verify_delivered_reply_rejected :
    configuredBot.serverSettings verifyIn7.guild.id = some ⟨some "900"⟩ ∧
    (lateWorld none).userSend "42" (dmText "Seven" (randomPhrase (lateWorld none))) =
      Except.ok () ∧
    (verify configuredBot (lateWorld none) verifyIn7 "Bob123").effects =
      [Effect.directMessage "42" (dmText "Seven" (randomPhrase (lateWorld none))) true] ∧
    (verify configuredBot (lateWorld none) verifyIn7 "Bob123").replies =
      [(Reply.checkDMs, false), (Reply.deliveryFailed, true)] ∧
    (verify configuredBot (lateWorld none) verifyIn7 "Bob123").shown =
      some Reply.deliveryFailed ∧
    (verify configuredBot (lateWorld none) verifyIn7 "Bob123").bot.verificationStore "42" =
      some ⟨"Bob123", "Robuddie-k3x9q2ab"⟩ :=
  ⟨by decide, rfl, rfl, by decide, by decide, by decide⟩

/-- C9: `setup` writes `serverSettings[guild] = { verifiedRoleId: role.id }`
for the first role named exactly "Verified", over any previous mapping,
exactly when such a role exists and the highest role of the bot is strictly
above it; otherwise `serverSettings` is unchanged; the mappings of other
communities and `verificationStore` are unchanged in all cases. -/
theorem setup_upsert (b : Bot) (w : World) (i : Interaction) :
    (setup b w i).bot.verificationStore = b.verificationStore ∧
    (∀ g, g ≠ i.guild.id → (setup b w i).bot.serverSettings g = b.serverSettings g) ∧
    (findVerifiedRole i.guild = none ↔ ∀ r ∈ i.guild.roles, r.name ≠ "Verified") ∧
    (∀ role, findVerifiedRole i.guild = some role →
      role ∈ i.guild.roles ∧ role.name = "Verified") ∧
    ((setup b w i).reply = some Reply.setupComplete ↔
      ∃ role highest, findVerifiedRole i.guild = some role ∧
        w.botHighestPosition i.guild.id = Except.ok highest ∧ role.position < highest) ∧
    (∀ role highest, findVerifiedRole i.guild = some role →
      w.botHighestPosition i.guild.id = Except.ok highest → role.position < highest →
      (setup b w i).bot.serverSettings = mapSet b.serverSettings i.guild.id ⟨some role.id⟩ ∧
      (setup b w i).bot.serverSettings i.guild.id = some ⟨some role.id⟩) ∧
    ((¬ ∃ role highest, findVerifiedRole i.guild = some role ∧
        w.botHighestPosition i.guild.id = Except.ok highest ∧ role.position < highest) →
      (setup b w i).bot.serverSettings = b.serverSettings) := by
  refine ⟨setup_store b w i, ?_, ?_, ?_, ?_⟩
  · intro g hg
    unfold setup
    split
    · rfl
    · split
      · rfl
      · split
        · rfl
        · exact mapSet_other _ _ _ hg
  · unfold findVerifiedRole
    simp [List.find?_eq_none]
  · intro role hrole
    unfold findVerifiedRole at hrole
    refine ⟨List.mem_of_find?_eq_some hrole, ?_⟩
    simpa using List.find?_some hrole
  · unfold setup
    cases hrole : findVerifiedRole i.guild with
    | none => simp [Outcome.reply]
    | some role =>
      cases hfetch : w.botHighestPosition i.guild.id with
      | error e => simp [Outcome.reply]
      | ok highest =>
        by_cases hpos : highest ≤ role.position
        · have hlt : ¬ role.position < highest := not_lt.mpr hpos
          simp [hpos, hlt, Outcome.reply]
        · have hlt : role.position < highest := not_le.mp hpos
          simp only [hpos, if_false]
          refine ⟨by simp [hlt, Outcome.reply], ?_, ?_⟩
          · intro role2 highest2 e1 e2 _
            cases e1
            cases e2
            exact ⟨rfl, mapSet_same _ _ _⟩
          · intro hn
            exact absurd ⟨role, highest, rfl, rfl, hlt⟩ hn

/-- Witness of C9: `/setup` in community 7, where the bot stands at position
5 and the "Verified" role at position 1. -/
theorem setup_upsert_witness :
    findVerifiedRole setupIn7.guild = some ⟨"900", "Verified", 1⟩ ∧
    (setup Bot.start (calmWorld none) setupIn7).reply = some Reply.setupComplete ∧
    (setup Bot.start (calmWorld none) setupIn7).bot.serverSettings "7" =
      some ⟨some "900"⟩ :=
  have t := setup_upsert Bot.start (calmWorld none) setupIn7
  ⟨by decide, t.2.2.2.2.1.mpr ⟨⟨"900", "Verified", 1⟩, 5, by decide, rfl, by decide⟩,
    (t.2.2.2.2.2.1 ⟨"900", "Verified", 1⟩ 5 (by decide) rfl (by decide)).2⟩

/-- C10: `done` may run in another community than `verify`.  For a pending
session whose profile text contains the phrase, when the community of the
`done` call has no `serverSettings` entry the read of
`settings.verifiedRoleId` throws inside the try block, so the reply is
ExternalServiceUnavailable, no role is granted and the session stays; when
`roles.add` itself rejects, the reply is ExternalServiceUnavailable as well
and the session stays. -/
theorem done_role_step_failure (b : Bot) (w : World) (i : Interaction) (s : Session)
    (first : RobloxUser) (rest : List RobloxUser) (d : String)
    (hr : Reachable b) (hs : b.verificationStore i.user = some s)
    (hl : w.usernamesUsers s.robloxUsername = Except.ok (first :: rest))
    (hf : w.usersGet first.id = Except.ok (some d))
    (hp : IsSubstring s.phrase d) :
    (b.serverSettings i.guild.id = none →
      (done b w i).reply = some Reply.externalServiceUnavailable ∧
      grants (done b w i).effects = [] ∧
      (done b w i).bot.verificationStore = b.verificationStore ∧
      (done b w i).bot.serverSettings = b.serverSettings ∧
      (done b w i).bot.verificationStore i.user = some s ∧
      (done b w i).effects.getLast? = some (Effect.consoleError (JsError.typeError
        "Cannot read properties of undefined (reading 'verifiedRoleId')"))) ∧
    (∀ settings role e, b.serverSettings i.guild.id = some settings →
      rolesCacheGet i.guild settings.verifiedRoleId = some role →
      w.rolesAdd i.guild.id i.user role = Except.error e →
      (done b w i).reply = some Reply.externalServiceUnavailable ∧
      grants (done b w i).effects = [] ∧
      (done b w i).bot.verificationStore = b.verificationStore ∧
      (done b w i).bot.serverSettings = b.serverSettings ∧
      (done b w i).bot.verificationStore i.user = some s ∧
      (done b w i).effects.getLast? = some (Effect.consoleError e)) := by
  have hinc : descriptionIncludes (some d) s.phrase = true :=
    (descriptionIncludes_iff (some d) (phrase_ne_empty hr hs)).mpr ⟨d, rfl, hp⟩
  rw [done_checked b w i hs hl hf, if_pos hinc]
  constructor
  · intro hnone
    have e1 : ∀ sofar, roleStep b w i s.robloxUsername sofar =
        doneCatch w b [] sofar (JsError.typeError
          "Cannot read properties of undefined (reading 'verifiedRoleId')") := by
      intro sofar
      unfold roleStep
      simp only [hnone]
    rw [e1]
    exact ⟨rfl, by simp [doneCatch, grants], rfl, rfl, hs, by simp [doneCatch]⟩
  · intro settings role e hsome hrole hadd
    have e1 : ∀ sofar, roleStep b w i s.robloxUsername sofar =
        doneCatch w b [] (sofar ++ [Effect.rolesAdd i.guild.id i.user role false]) e := by
      intro sofar
      unfold roleStep
      simp only [hsome, hrole, hadd]
    rw [e1]
    exact ⟨rfl, by simp [doneCatch, grants], rfl, rfl, hs, by simp [doneCatch]⟩

/-- Witness of C10: requester 42, pending from community 7, runs `/done`
in community 9, which has no settings; and runs `/done` in community 7
while role grants are rejected. -/
theorem done_role_step_failure_witness :
    (Reachable pendingBot ∧
      pendingBot.verificationStore doneIn9.user = some ⟨"Bob123", "Robuddie-k3x9q2ab"⟩ ∧
      IsSubstring "Robuddie-k3x9q2ab" "hi Robuddie-k3x9q2ab" ∧
      pendingBot.serverSettings doneIn9.guild.id = none ∧
      (done pendingBot (calmWorld (some "hi Robuddie-k3x9q2ab")) doneIn9).reply =
        some Reply.externalServiceUnavailable ∧
      (done pendingBot (calmWorld (some "hi Robuddie-k3x9q2ab")) doneIn9).bot.verificationStore
        "42" = some ⟨"Bob123", "Robuddie-k3x9q2ab"⟩) ∧
    (pendingBot.serverSettings doneIn7.guild.id = some ⟨some "900"⟩ ∧
      rolesCacheGet doneIn7.guild (some "900") = some ⟨"900", "Verified", 1⟩ ∧
      (done pendingBot (closedWorld (some "hi Robuddie-k3x9q2ab")) doneIn7).reply =
        some Reply.externalServiceUnavailable ∧
      (done pendingBot (closedWorld (some "hi Robuddie-k3x9q2ab")) doneIn7).bot.verificationStore
        "42" = some ⟨"Bob123", "Robuddie-k3x9q2ab"⟩) :=
  have hp : IsSubstring "Robuddie-k3x9q2ab" "hi Robuddie-k3x9q2ab" :=
    isSubstring_of_includes (by decide)
  have t1 := (done_role_step_failure pendingBot (calmWorld (some "hi Robuddie-k3x9q2ab"))
    doneIn9 ⟨"Bob123", "Robuddie-k3x9q2ab"⟩ ⟨1, "Bob123"⟩ [] "hi Robuddie-k3x9q2ab"
    reachable_pendingBot (by decide) rfl rfl hp).1 (by decide)
  have t2 := (done_role_step_failure pendingBot (closedWorld (some "hi Robuddie-k3x9q2ab"))
    doneIn7 ⟨"Bob123", "Robuddie-k3x9q2ab"⟩ ⟨1, "Bob123"⟩ [] "hi Robuddie-k3x9q2ab"
    reachable_pendingBot (by decide) rfl rfl hp).2 ⟨some "900"⟩ ⟨"900", "Verified", 1⟩
    (JsError.rejected "Missing Permissions") (by decide) (by decide) rfl
  ⟨⟨reachable_pendingBot, by decide, hp, by decide, t1.1, t1.2.2.2.2.1⟩,
    ⟨by decide, by decide, t2.1, t2.2.2.2.2.1⟩⟩

/-- C8: the phrase check of `done` is a literal, case-sensitive substring
test.  For a pending session whose account lookup and profile fetch went
through, `done` enters the role step of lines 159-167 exactly when the
stored phrase occurs as a contiguous run of characters in the fetched
description; the role step ends in a grant or in RoleMissing whenever the
community has settings and `roles.add` does not reject; when the phrase does
not occur, whatever the description holds in another letter case, the reply
is PhraseNotFound, no role is granted and the tables are unchanged. -/
theorem done_phrase_check (b : Bot) (w : World) (i : Interaction) (s : Session)
    (first : RobloxUser) (rest : List RobloxUser) (description : Option String)
    (hr : Reachable b) (hs : b.verificationStore i.user = some s)
    (hl : w.usernamesUsers s.robloxUsername = Except.ok (first :: rest))
    (hf : w.usersGet first.id = Except.ok description) :
    (done b w i = roleStep b w i s.robloxUsername
        [Effect.deferReply, Effect.usernameLookup s.robloxUsername,
          Effect.profileFetch first.id] ↔
      ∃ d, description = some d ∧ IsSubstring s.phrase d) ∧
    (((∃ n r, (done b w i).reply = some (Reply.success n r)) ∨
        (done b w i).reply = some Reply.roleMissing) →
      ∃ d, description = some d ∧ IsSubstring s.phrase d) ∧
    ((∃ d, description = some d ∧ IsSubstring s.phrase d) →
      ∀ settings, b.serverSettings i.guild.id = some settings →
      (∀ role, w.rolesAdd i.guild.id i.user role = Except.ok ()) →
      (∃ n r, (done b w i).reply = some (Reply.success n r)) ∨
        (done b w i).reply = some Reply.roleMissing) ∧
    (grants (done b w i).effects ≠ [] →
      ∃ d, description = some d ∧ IsSubstring s.phrase d) ∧
    ((¬ ∃ d, description = some d ∧ IsSubstring s.phrase d) →
      (done b w i).reply = some Reply.phraseNotFound ∧
      grants (done b w i).effects = [] ∧
      (done b w i).bot.verificationStore = b.verificationStore ∧
      (done b w i).bot.serverSettings = b.serverSettings) := by
  have hiff := descriptionIncludes_iff description (phrase_ne_empty hr hs)
  have hstep := roleStep_cases b w i s.robloxUsername
    [Effect.deferReply, Effect.usernameLookup s.robloxUsername,
      Effect.profileFetch first.id] (by simp [grants])
  have hdone := done_checked b w i hs hl hf
  by_cases hinc : descriptionIncludes description s.phrase = true
  · have hsub := hiff.mp hinc
    rw [if_pos hinc] at hdone
    refine ⟨⟨fun _ => hsub, fun _ => hdone⟩, fun _ => hsub, ?_, fun _ => hsub,
      fun hn => absurd hsub hn⟩
    intro _ settings hsome hadd
    rw [hdone]
    unfold roleStep
    simp only [hsome]
    cases hrole : rolesCacheGet i.guild settings.verifiedRoleId with
    | none => exact Or.inr (doneReply_reply _ _ _ _)
    | some role =>
      simp only [hadd role]
      exact Or.inl ⟨_, _, doneReply_reply _ _ _ _⟩
  · have hsub : ¬ ∃ d, description = some d ∧ IsSubstring s.phrase d :=
      fun h => hinc (hiff.mpr h)
    rw [if_neg hinc] at hdone
    refine ⟨⟨fun h => ?_, fun h => absurd h hsub⟩, fun h => ?_, fun h => absurd h hsub,
      fun h => ?_, fun _ => ?_⟩
    · exfalso
      have hreply : (roleStep b w i s.robloxUsername
          [Effect.deferReply, Effect.usernameLookup s.robloxUsername,
            Effect.profileFetch first.id]).reply = some Reply.phraseNotFound := by
        rw [← h, hdone, doneReply_reply]
      rcases hstep with ⟨role, h1, _, _⟩ | ⟨h1 | h1, _, _⟩ <;>
        rw [h1] at hreply <;> cases hreply
    · exfalso
      rw [hdone, doneReply_reply] at h
      rcases h with ⟨n, r, h⟩ | h <;> cases h
    · exfalso
      rw [hdone, doneReply_grants] at h
      exact h (by simp [grants])
    · rw [hdone, doneReply_reply, doneReply_grants, doneReply_bot]
      exact ⟨rfl, by simp [grants], rfl, rfl⟩

/-- Witness of C8: the profile text holds the phrase of requester 42 only in
upper case. -/
theorem done_phrase_check_witness :
    Reachable pendingBot ∧
    pendingBot.verificationStore doneIn7.user = some ⟨"Bob123", "Robuddie-k3x9q2ab"⟩ ∧
    ¬ IsSubstring "Robuddie-k3x9q2ab" "hi ROBUDDIE-K3X9Q2AB" ∧
    (done pendingBot (calmWorld (some "hi ROBUDDIE-K3X9Q2AB")) doneIn7).reply =
      some Reply.phraseNotFound ∧
    grants (done pendingBot (calmWorld (some "hi ROBUDDIE-K3X9Q2AB")) doneIn7).effects = [] :=
  have hn : ¬ IsSubstring "Robuddie-k3x9q2ab" "hi ROBUDDIE-K3X9Q2AB" := fun h =>
    absurd ((includes_iff _ _).mpr h) (by decide)
  have t := (done_phrase_check pendingBot (calmWorld (some "hi ROBUDDIE-K3X9Q2AB")) doneIn7
    ⟨"Bob123", "Robuddie-k3x9q2ab"⟩ ⟨1, "Bob123"⟩ [] (some "hi ROBUDDIE-K3X9Q2AB")
    reachable_pendingBot (by decide) rfl rfl).2.2.2.2
    (fun ⟨d, hd, hsub⟩ => by
      cases hd
      exact hn hsub)
  ⟨reachable_pendingBot, by decide, hn, t.1, t.2.1⟩

/-- C4: for a pending session whose account is found, when the fetched
profile text does not contain the stored phrase (an absent or empty text
included) `done` replies PhraseNotFound, grants no role and leaves the
session of the requester, with its username and phrase, in place; a later
`done` without a `verify` in between, against a profile text that contains
the phrase, in a configured community whose role exists, succeeds with one
grant. -/
theorem done_phrase_missing_then_retry (b : Bot) (w : World) (i : Interaction)
    (s : Session) (first : RobloxUser) (rest : List RobloxUser)
    (description : Option String)
    (hr : Reachable b) (hs : b.verificationStore i.user = some s)
    (hl : w.usernamesUsers s.robloxUsername = Except.ok (first :: rest))
    (hf : w.usersGet first.id = Except.ok description)
    (hno : ¬ ∃ d, description = some d ∧ IsSubstring s.phrase d) :
    (done b w i).reply = some Reply.phraseNotFound ∧
    grants (done b w i).effects = [] ∧
    (done b w i).bot.verificationStore i.user = some s ∧
    (done b w i).bot.verificationStore = b.verificationStore ∧
    (done b w i).bot.serverSettings = b.serverSettings ∧
    ∀ (w2 : World) (i2 : Interaction) (first2 : RobloxUser) (rest2 : List RobloxUser)
      (d2 : String) (settings : Settings) (role : Role),
      i2.user = i.user →
      w2.usernamesUsers s.robloxUsername = Except.ok (first2 :: rest2) →
      w2.usersGet first2.id = Except.ok (some d2) →
      IsSubstring s.phrase d2 →
      b.serverSettings i2.guild.id = some settings →
      rolesCacheGet i2.guild settings.verifiedRoleId = some role →
      w2.rolesAdd i2.guild.id i2.user role = Except.ok () →
      (done (done b w i).bot w2 i2).reply = some (Reply.success s.robloxUsername role.name) ∧
      grants (done (done b w i).bot w2 i2).effects = [(i.user, role)] ∧
      (done (done b w i).bot w2 i2).bot.verificationStore i.user = none := by
  have hne := phrase_ne_empty hr hs
  have hinc : ¬ descriptionIncludes description s.phrase = true :=
    fun h => hno ((descriptionIncludes_iff description hne).mp h)
  have hdone := done_checked b w i hs hl hf
  rw [if_neg hinc] at hdone
  rw [hdone, doneReply_reply, doneReply_grants, doneReply_bot]
  refine ⟨rfl, by simp [grants], hs, rfl, rfl, ?_⟩
  intro w2 i2 first2 rest2 d2 settings role hu hl2 hf2 hp2 hset hrole hadd
  have hs2 : b.verificationStore i2.user = some s := by rw [hu]; exact hs
  rw [done_granted b w2 i2 hs2 hl2 hf2 hne hp2 hset hrole hadd, doneReply_reply,
    doneReply_grants, doneReply_bot, hu]
  exact ⟨rfl, by simp [grants], mapDelete_same _ _⟩

/-- Witness of C4: the profile of "Bob123" is empty at the first `/done` of
requester 42 and holds the phrase at the second. -/
theorem done_phrase_missing_then_retry_witness :
    Reachable pendingBot ∧
    pendingBot.verificationStore doneIn7.user = some ⟨"Bob123", "Robuddie-k3x9q2ab"⟩ ∧
    (¬ ∃ d, some "" = some d ∧ IsSubstring "Robuddie-k3x9q2ab" d) ∧
    IsSubstring "Robuddie-k3x9q2ab" "hi Robuddie-k3x9q2ab" ∧
    (done pendingBot (calmWorld (some "")) doneIn7).reply = some Reply.phraseNotFound ∧
    (done pendingBot (calmWorld (some "")) doneIn7).bot.verificationStore "42" =
      some ⟨"Bob123", "Robuddie-k3x9q2ab"⟩ ∧
    (done (done pendingBot (calmWorld (some "")) doneIn7).bot
      (calmWorld (some "hi Robuddie-k3x9q2ab")) doneIn7).reply =
      some (Reply.success "Bob123" "Verified") :=
  have hno : ¬ ∃ d, some "" = some d ∧ IsSubstring "Robuddie-k3x9q2ab" d :=
    fun ⟨d, hd, hsub⟩ => by
      cases hd
      exact absurd ((includes_iff _ _).mpr hsub) (by decide)
  have hp : IsSubstring "Robuddie-k3x9q2ab" "hi Robuddie-k3x9q2ab" :=
    isSubstring_of_includes (by decide)
  have t := done_phrase_missing_then_retry pendingBot (calmWorld (some "")) doneIn7
    ⟨"Bob123", "Robuddie-k3x9q2ab"⟩ ⟨1, "Bob123"⟩ [] (some "")
    reachable_pendingBot (by decide) rfl rfl hno
  have t2 := t.2.2.2.2.2 (calmWorld (some "hi Robuddie-k3x9q2ab")) doneIn7 ⟨1, "Bob123"⟩ []
    "hi Robuddie-k3x9q2ab" ⟨some "900"⟩ ⟨"900", "Verified", 1⟩ rfl rfl rfl hp
    (by decide) (by decide) rfl
  ⟨reachable_pendingBot, by decide, hno, hp, t.1, t.2.2.1, t2.1⟩

/-- Counterexample to C1 as stated: community 7 has a GuildConfig, but its
"Verified" role was deleted.  Requester 42 runs `verify` and then `done`
there, the profile text contains the issued phrase, and yet the reply is
RoleMissing and no role is granted. -/
theorem deleted_role_blocks_success :
    Reachable configuredBot ∧
    configuredBot.serverSettings "7" = some ⟨some "900"⟩ ∧
    (verify configuredBot (calmWorld none) verifyIn7NoRole "Bob123").reply =
      some Reply.checkDMs ∧
    (verify configuredBot (calmWorld none) verifyIn7NoRole "Bob123").bot.verificationStore
      "42" = some ⟨"Bob123", "Robuddie-k3x9q2ab"⟩ ∧
    (calmWorld (some "hi Robuddie-k3x9q2ab")).usersGet 1 =
      Except.ok (some "hi Robuddie-k3x9q2ab") ∧
    IsSubstring "Robuddie-k3x9q2ab" "hi Robuddie-k3x9q2ab" ∧
    (done (verify configuredBot (calmWorld none) verifyIn7NoRole "Bob123").bot
      (calmWorld (some "hi Robuddie-k3x9q2ab")) doneIn7NoRole).reply =
      some Reply.roleMissing ∧
    grants (done (verify configuredBot (calmWorld none) verifyIn7NoRole "Bob123").bot
      (calmWorld (some "hi Robuddie-k3x9q2ab")) doneIn7NoRole).effects = [] :=
  ⟨reachable_configuredBot, by decide, by decide, by decide, rfl,
    isSubstring_of_includes (by decide), by decide, by decide⟩

/-- C1 as amended: in a community that has a GuildConfig, `verify` followed
by `done` of the same requester in that community, with the account found
and a profile text that contains the issued phrase, replies with success and
makes exactly one role grant, to the requester, provided the configured role
is still in the role cache of the community and `roles.add` goes through;
when the configured role is no longer in the cache the reply is RoleMissing
and no role is granted. -/
theorem verify_then_done (b : Bot) (w1 w2 : World) (i1 i2 : Interaction) (n : String)
    (settings : Settings) (first : RobloxUser) (rest : List RobloxUser) (d : String)
    (h1 : b.serverSettings i1.guild.id = some settings)
    (h2 : truthy settings.verifiedRoleId = true)
    (hu : i2.user = i1.user) (hg : i2.guild.id = i1.guild.id)
    (hl : w2.usernamesUsers n = Except.ok (first :: rest))
    (hf : w2.usersGet first.id = Except.ok (some d))
    (hp : IsSubstring (randomPhrase w1) d) :
    (∀ role, rolesCacheGet i2.guild settings.verifiedRoleId = some role →
      w2.rolesAdd i2.guild.id i2.user role = Except.ok () →
      (done (verify b w1 i1 n).bot w2 i2).reply = some (Reply.success n role.name) ∧
      grants (done (verify b w1 i1 n).bot w2 i2).effects = [(i1.user, role)] ∧
      (done (verify b w1 i1 n).bot w2 i2).bot.verificationStore i1.user = none) ∧
    (rolesCacheGet i2.guild settings.verifiedRoleId = none →
      (done (verify b w1 i1 n).bot w2 i2).reply = some Reply.roleMissing ∧
      grants (done (verify b w1 i1 n).bot w2 i2).effects = []) := by
  have hv := verify_tables b w1 i1 n settings h1 h2
  have hs : (verify b w1 i1 n).bot.verificationStore i2.user = some ⟨n, randomPhrase w1⟩ := by
    rw [hu]; exact hv.1
  have hset : (verify b w1 i1 n).bot.serverSettings i2.guild.id = some settings := by
    rw [hv.2, hg]; exact h1
  have hne : (⟨n, randomPhrase w1⟩ : Session).phrase ≠ "" := issued_ne_empty _
  constructor
  · intro role hrole hadd
    rw [done_granted _ w2 i2 hs hl hf hne hp hset hrole hadd, doneReply_reply,
      doneReply_grants, doneReply_bot, hu]
    exact ⟨rfl, by simp [grants], mapDelete_same _ _⟩
  · intro hrole
    rw [done_role_missing _ w2 i2 hs hl hf hne hp hset hrole, doneReply_reply,
      doneReply_grants]
    exact ⟨rfl, by simp [grants]⟩

/-- Witness of the amended C1: the example of the spec, requester 42 in
community 7 with the account "Bob123". -/
theorem verify_then_done_witness :
    configuredBot.serverSettings verifyIn7.guild.id = some ⟨some "900"⟩ ∧
    truthy (some "900") = true ∧
    IsSubstring (randomPhrase (calmWorld none)) "hi Robuddie-k3x9q2ab" ∧
    rolesCacheGet doneIn7.guild (some "900") = some ⟨"900", "Verified", 1⟩ ∧
    (done (verify configuredBot (calmWorld none) verifyIn7 "Bob123").bot
      (calmWorld (some "hi Robuddie-k3x9q2ab")) doneIn7).reply =
      some (Reply.success "Bob123" "Verified") ∧
    grants (done (verify configuredBot (calmWorld none) verifyIn7 "Bob123").bot
      (calmWorld (some "hi Robuddie-k3x9q2ab")) doneIn7).effects =
      [("42", ⟨"900", "Verified", 1⟩)] :=
  have hp : IsSubstring (randomPhrase (calmWorld none)) "hi Robuddie-k3x9q2ab" :=
    isSubstring_of_includes (by decide)
  have t := (verify_then_done configuredBot (calmWorld none)
    (calmWorld (some "hi Robuddie-k3x9q2ab")) verifyIn7 doneIn7 "Bob123" ⟨some "900"⟩
    ⟨1, "Bob123"⟩ [] "hi Robuddie-k3x9q2ab" (by decide) (by decide) rfl rfl rfl rfl hp).1
    ⟨"900", "Verified", 1⟩ (by decide) rfl
  ⟨by decide, by decide, hp, by decide, t.1, t.2.1⟩

end Robuddie
